import Mathlib

/-!
Shallow embedding of the PV fault-detection web front-end
(`js/config.js`, `js/app.js`, and the offline cache worker `sw.js`),
together with theorems settling the behavioural claims about it.

Conventions of the embedding:
* JS strings are `String`, JS integers `Nat`/`Int`, JS fractional
  quantities `ℚ` (the claims below involve only exact proportions, no
  float rounding).
* JS truthiness on strings is modelled by comparison with `""` (the
  empty string plays the role of both `""` and `undefined` where the
  code only tests truthiness and uses the value as a map key).
* Stateful handlers become pure state-transition functions; sequences
  of browser events become lists folded over the transition function.
-/

/- ===== js/config.js ===== -/

namespace CONFIG

def API_BASE_URL : String := "https://YOUR_API_SERVER_URL"

/-- Max file size in bytes for images (10MB), from `config.js`. -/
def MAX_FILE_SIZE : Nat := 10 * 1024 * 1024

/-- Max file size in bytes for videos (50MB), from `config.js`. -/
def MAX_VIDEO_SIZE : Nat := 50 * 1024 * 1024

/-- Accepted image MIME types, from `config.js`. -/
def SUPPORTED_TYPES : List String := ["image/jpeg", "image/png", "image/webp"]

/-- Accepted video MIME types, from `config.js`. -/
def SUPPORTED_VIDEO_TYPES : List String :=
  ["video/mp4", "video/webm", "video/quicktime", "video/x-msvideo"]

end CONFIG

/- ===== Service worker (cache worker) ===== -/

/-- The cache version tag, `CACHE_NAME` in `sw.js`. -/
def CACHE_NAME : String := "pv-fault-detector-v1"

/-- A network response: HTTP status plus an abstract body.  Cloning a
response (`fetchResponse.clone()`) yields an identical value, so clones
are represented by the value itself. -/
structure Response where
  status : Nat
  body : String
deriving DecidableEq

/-- A request as far as the worker inspects it: its URL and its mode
(`"navigate"` for top-level page navigations). -/
structure Request where
  url : String
  mode : String
deriving DecidableEq

/-- One cache store: an association of request URLs to responses. -/
abbrev CacheStore := List (String × Response)

/-- Exact-match lookup, modelling `caches.match`. -/
def lookupCache : CacheStore → String → Option Response
  | [], _ => none
  | (u, r) :: rest, url => if u = url then some r else lookupCache rest url

/-- `cache.put(request, response)`: overwrite the entry for the URL if
present, otherwise add it. -/
def putCache : CacheStore → String → Response → CacheStore
  | [], url, resp => [(url, resp)]
  | (u, r) :: rest, url, resp =>
      if u = url then (url, resp) :: rest else (u, r) :: putCache rest url resp

/-- Does `pat` occur at the head of `l`? -/
def startsHere : List Char → List Char → Bool
  | [], _ => true
  | _ :: _, [] => false
  | p :: ps, c :: cs => p = c && startsHere ps cs

/-- Substring test on the character list, modelling JS `String.includes`. -/
def containsSub (pat : List Char) : List Char → Bool
  | [] => startsHere pat []
  | c :: cs => startsHere pat (c :: cs) || containsSub pat cs

/-- `event.request.url.includes('/api/')`: the backend API marker test. -/
def hasApiMarker (url : String) : Bool :=
  containsSub "/api/".data url.data

/-- Result of the worker's network fetch: a response, or a transport
failure (offline). -/
inductive NetResult where
  | ok (resp : Response)
  | failed
deriving DecidableEq

/-- What the fetch handler delivers for a request.
* `passthrough`: the handler returned before calling `respondWith`; the
  browser performs its default network fetch, the worker neither reads
  nor writes the cache.
* `respond r`: `respondWith` settled with response `r`.
* `undefinedResponse`: the `.catch` handler returned no response, so the
  `respondWith` promise resolved with `undefined`; the browser surfaces
  this to the page as a network error, i.e. the caller observes the
  failure rather than a substituted or empty response. -/
inductive FetchOutcome where
  | passthrough
  | respond (r : Response)
  | undefinedResponse
deriving DecidableEq

/-- The fetch event listener of `sw.js`, as a function of the current
cache store, the request, and how the network would behave for it.
Returns the outcome delivered to the page and the new cache store. -/
def handleFetch (cache : CacheStore) (req : Request) (net : NetResult) :
    FetchOutcome × CacheStore :=
  if hasApiMarker req.url then
    (.passthrough, cache)
  else
    match lookupCache cache req.url with
    | some r => (.respond r, cache)
    | none =>
        match net with
        | .ok resp =>
            if resp.status ≠ 200 then
              (.respond resp, cache)
            else
              (.respond resp, putCache cache req.url resp)
        | .failed =>
            if req.mode = "navigate" then
              match lookupCache cache "/index.html" with
              | some shell => (.respond shell, cache)
              | none => (.undefinedResponse, cache)
            else
              (.undefinedResponse, cache)

/-- `caches.delete(name)`: remove the store with the given tag. -/
def deleteCache (stores : List (String × CacheStore)) (name : String) :
    List (String × CacheStore) :=
  stores.filter (fun p => p.1 ≠ name)

/-- The activate event listener of `sw.js`: enumerate all store tags,
keep those equal to `CACHE_NAME` out of the deletion list, and delete
every other store. -/
def activateSW (stores : List (String × CacheStore)) : List (String × CacheStore) :=
  ((stores.map Prod.fst).filter (fun name => name ≠ CACHE_NAME)).foldl deleteCache stores

/- ===== js/app.js: file selection and validation ===== -/

/-- The slice of a `File` object the controller inspects: MIME type and
byte size. -/
structure JSFile where
  type : String
  size : Nat
deriving DecidableEq

/-- The controller state touched by file selection (`PVFaultDetector`):
the selected file, the image-vs-video classification flag, the
visibility of the preview and results sections, and the list of toast
notifications shown so far (message, toast type). -/
structure UIState where
  selectedFile : Option JSFile
  isVideo : Bool
  previewVisible : Bool
  resultsVisible : Bool
  toasts : List (String × String)
deriving DecidableEq

/-- `showToast(message, type)`: append a transient notification. -/
def showToast (s : UIState) (message ty : String) : UIState :=
  { s with toasts := s.toasts ++ [(message, ty)] }

/-- `showPreview(file)` (its `FileReader.onload` continuation): reveal
the preview section and hide the results section.  The image/video
element swapping it also performs touches no state any claim mentions
and is left out. -/
def showPreview (s : UIState) (_file : JSFile) : UIState :=
  { s with previewVisible := true, resultsVisible := false }

/-- `processFile(file)` from `js/app.js`, translated clause by clause.
Note that `this.isVideo` is assigned *before* either validation check,
and that `Math.round(maxSize / 1024 / 1024)` is exact at both
configured ceilings, so plain `Nat` division is faithful. -/
def processFile (s : UIState) (file : JSFile) : UIState :=
  let isVideo := CONFIG.SUPPORTED_VIDEO_TYPES.contains file.type
  let s1 := { s with isVideo := isVideo }
  if !(CONFIG.SUPPORTED_TYPES.contains file.type) && !isVideo then
    showToast s1 "Please select a valid image or video file" "error"
  else
    let maxSize := if isVideo then CONFIG.MAX_VIDEO_SIZE else CONFIG.MAX_FILE_SIZE
    if maxSize < file.size then
      let sizeMB := maxSize / 1024 / 1024
      showToast s1 ("File size must be less than " ++ toString sizeMB ++ "MB") "error"
    else
      showPreview { s1 with selectedFile := some file } file

/- ===== js/app.js: analyzeVideo progress indicator ===== -/

/-- Events that can reach the progress indicator during `analyzeVideo`:
an `xhr.upload.onprogress` event with its byte counts (modelled only
when `lengthComputable`), a 500ms timer tick of the `setInterval`
started right after `xhr.send`, the `xhr.onload` response arrival (the
second, effective `onload` assignment in the source), and the
`xhr.onerror` transport failure. -/
inductive XhrEvent where
  | uploadProgress (loaded total : Nat)
  | tick
  | load (status : Nat)
  | netError
deriving DecidableEq

/-- Progress-indicator state: the width of the progress bar in percent,
the `progress` variable of the interval closure, and whether the
interval is still running (`clearInterval` not yet called). -/
structure ProgressState where
  width : ℚ
  progress : Nat
  intervalActive : Bool
deriving DecidableEq

/-- State at `xhr.send`: bar at `0%`, the closure variable `progress`
initialized to 30, the interval just started. -/
def initProgress : ProgressState := ⟨0, 30, true⟩

/-- One event of the `analyzeVideo` promise executor.
* `uploadProgress`: `width = (loaded / total) * 30`.
* `tick`: if `progress < 90` then `progress += 2` and the bar shows
  `progress`; otherwise the interval clears itself without touching the
  bar.
* `load`: `clearInterval` then `width = 100%` (for any status).
* `netError`: the handler only rejects the promise; the bar and the
  interval are untouched. -/
def xhrStep (s : ProgressState) : XhrEvent → ProgressState
  | .uploadProgress loaded total =>
      { s with width := (loaded : ℚ) / (total : ℚ) * 30 }
  | .tick =>
      if s.intervalActive then
        if s.progress < 90 then
          { s with progress := s.progress + 2, width := ((s.progress + 2 : Nat) : ℚ) }
        else
          { s with intervalActive := false }
      else s
  | .load _ => { s with width := 100, intervalActive := false }
  | .netError => s

/-- Run a sequence of events from the state at `xhr.send`. -/
def runXhr (evts : List XhrEvent) : ProgressState :=
  evts.foldl xhrStep initProgress

/-- Well-formed pre-response events: upload byte counts are consistent
(`0 < total`, `loaded ≤ total`, as the transport guarantees) and the
response has not arrived. -/
def validEvt : XhrEvent → Bool
  | .uploadProgress loaded total => decide (0 < total) && decide (loaded ≤ total)
  | .load _ => false
  | _ => true

/- ===== js/app.js: single-image statistics ===== -/

/-- The detection fields `displayStats` reads.  A missing
(`undefined`) field and an empty string are both falsy in the source's
`det.fault_type || det.class_name`, so both are rendered as `""`. -/
structure Detection where
  fault_type : String
  class_name : String
deriving DecidableEq

/-- The fields of a single-image analysis response that `displayStats`
reads.  `inference_time` is in integer milliseconds (the source renders
`(result.inference_time || 0).toFixed(0)`). -/
structure AnalysisResult where
  detections : List Detection
  inference_time : Nat
  stages_used : List String
  model : String
deriving DecidableEq

/-- `det.fault_type || det.class_name`: the label a detection is
tallied under. -/
def effFault (d : Detection) : String :=
  if d.fault_type = "" then d.class_name else d.fault_type

/-- `faultCounts[ft] = (faultCounts[ft] || 0) + 1` on an
insertion-ordered object. -/
def bump (m : List (String × Nat)) (k : String) : List (String × Nat) :=
  if m.any (fun p => p.1 = k) then
    m.map (fun p => if p.1 = k then (p.1, p.2 + 1) else p)
  else
    m ++ [(k, 1)]

/-- The `faultCounts` object built by `displayStats`'s `forEach`. -/
def faultCounts (ds : List Detection) : List (String × Nat) :=
  ds.foldl (fun m d => bump m (effFault d)) []

/-- The tally entries that survive the `fault !== 'NON_DEFECTIVE'`
filter. -/
def faultTally (ds : List Detection) : List (String × Nat) :=
  (faultCounts ds).filter (fun p => p.1 ≠ "NON_DEFECTIVE")

/-- `fault.replace(/_/g, ' ')`. -/
def replaceUnderscores (s : String) : String :=
  s.map (fun c => if c = '_' then ' ' else c)

/-- `displayStats(result)`: the ordered list of stat cards as
(value, label) pairs.  `result.detections?.length || 0` equals the
list length (`|| 0` only maps 0 to 0 here); the stages value falls back
through `result.model` to `'Pipeline'` on JS falsiness. -/
def displayStats (r : AnalysisResult) : List (String × String) :=
  let stages := String.intercalate " → " r.stages_used
  let stagesVal :=
    if stages = "" then (if r.model = "" then "Pipeline" else r.model) else stages
  [(toString r.detections.length, "Detections"),
   (toString r.inference_time ++ "ms", "Inference Time"),
   (stagesVal, "Stages Used")]
  ++ (if r.detections.length > 0 then
        (faultTally r.detections).map (fun p => (toString p.2, replaceUnderscores p.1))
      else [])

/- ===== js/app.js: video frame navigation ===== -/

/-- One per-frame result inside a video analysis response. -/
structure Frame where
  original_image : String
  detection_image : String
  segmentation_image : String
  detections : List Detection
deriving DecidableEq

/-- Frame-navigation state for a loaded multi-frame result: the frames
of `this.videoResults` and `this.currentFrameIndex`.  The index is an
`Int` because the JS arithmetic (`index - 1`, `index + 1`) is unbounded
before the guards run. -/
structure FrameNavState where
  frames : List Frame
  currentFrameIndex : Int
deriving DecidableEq

/-- `showFrameResult(index)`: a no-op when `index < 0 || index >=
frames.length`, otherwise adopts `index` as the current frame (the DOM
then shows `frames[index]`). -/
def showFrameResult (s : FrameNavState) (index : Int) : FrameNavState :=
  if index < 0 ∨ (s.frames.length : Int) ≤ index then s
  else { s with currentFrameIndex := index }

/-- `showPrevFrame()`. -/
def showPrevFrame (s : FrameNavState) : FrameNavState :=
  if 0 < s.currentFrameIndex then showFrameResult s (s.currentFrameIndex - 1) else s

/-- `showNextFrame()`. -/
def showNextFrame (s : FrameNavState) : FrameNavState :=
  if s.currentFrameIndex < (s.frames.length : Int) - 1 then
    showFrameResult s (s.currentFrameIndex + 1)
  else s

/-- A click on one of the two frame-navigation buttons. -/
inductive NavCmd where
  | prev
  | next
deriving DecidableEq

def navStep (s : FrameNavState) : NavCmd → FrameNavState
  | .prev => showPrevFrame s
  | .next => showNextFrame s

/-- Run a sequence of navigation clicks. -/
def runNav (s : FrameNavState) (cmds : List NavCmd) : FrameNavState :=
  cmds.foldl navStep s

/-- The frame the result panes currently display. -/
def displayedFrame (s : FrameNavState) : Option Frame :=
  s.frames.get? s.currentFrameIndex.toNat

/- ===== js/config.js: the frozen CONFIG object graph ===== -/

/-- Addresses of the six objects reachable from `CONFIG`: the top-level
object, its three nested plain objects, and its two arrays. -/
inductive ConfigAddr where
  | cfg
  | endpoints
  | classColors
  | classIcons
  | supportedTypes
  | supportedVideoTypes
deriving DecidableEq

/-- A JS property value in the CONFIG object graph. -/
inductive JSVal where
  | str (s : String)
  | num (n : Int)
  | ref (a : ConfigAddr)
deriving DecidableEq

/-- A JS object: its own properties (insertion-ordered; arrays carry
index keys and `length`) and its `Object.freeze` status. -/
structure JSObject where
  props : List (String × JSVal)
  frozen : Bool
deriving DecidableEq

/-- The heap of the six CONFIG objects. -/
structure ConfigHeap where
  cfg : JSObject
  endpoints : JSObject
  classColors : JSObject
  classIcons : JSObject
  supportedTypes : JSObject
  supportedVideoTypes : JSObject
deriving DecidableEq

def getObj (h : ConfigHeap) : ConfigAddr → JSObject
  | .cfg => h.cfg
  | .endpoints => h.endpoints
  | .classColors => h.classColors
  | .classIcons => h.classIcons
  | .supportedTypes => h.supportedTypes
  | .supportedVideoTypes => h.supportedVideoTypes

def setObj (h : ConfigHeap) : ConfigAddr → JSObject → ConfigHeap
  | .cfg, o => { h with cfg := o }
  | .endpoints, o => { h with endpoints := o }
  | .classColors, o => { h with classColors := o }
  | .classIcons, o => { h with classIcons := o }
  | .supportedTypes, o => { h with supportedTypes := o }
  | .supportedVideoTypes, o => { h with supportedVideoTypes := o }

def writeKey : List (String × JSVal) → String → JSVal → List (String × JSVal)
  | [], k, v => [(k, v)]
  | (k0, v0) :: rest, k, v =>
      if k0 = k then (k, v) :: rest else (k0, v0) :: writeKey rest k v

/-- A non-strict-mode JS property write: silently a no-op on a frozen
object, otherwise adds or overwrites the property. -/
def setProp (o : JSObject) (k : String) (v : JSVal) : JSObject :=
  if o.frozen then o else { o with props := writeKey o.props k v }

/-- An attempted mutation `obj[k] = v` of one object in the heap. -/
def writeProp (h : ConfigHeap) (a : ConfigAddr) (k : String) (v : JSVal) : ConfigHeap :=
  setObj h a (setProp (getObj h a) k v)

/-- `Object.freeze`. -/
def freezeObj (o : JSObject) : JSObject := { o with frozen := true }

/-- The CONFIG object graph as the literal in `js/config.js` builds it,
before the `Object.freeze` calls. -/
def rawConfigHeap : ConfigHeap where
  cfg := ⟨[("API_BASE_URL", .str "https://YOUR_API_SERVER_URL"),
           ("ENDPOINTS", .ref .endpoints),
           ("MAX_FILE_SIZE", .num 10485760),
           ("MAX_VIDEO_SIZE", .num 52428800),
           ("SUPPORTED_TYPES", .ref .supportedTypes),
           ("SUPPORTED_VIDEO_TYPES", .ref .supportedVideoTypes),
           ("CLASS_COLORS", .ref .classColors),
           ("CLASS_ICONS", .ref .classIcons)], false⟩
  endpoints := ⟨[("ANALYZE", .str "/api/analyze"),
                 ("ANALYZE_VIDEO", .str "/api/analyze-video"),
                 ("HEALTH", .str "/api/health"),
                 ("DETECT", .str "/api/detect"),
                 ("SEGMENT", .str "/api/segment")], false⟩
  classColors := ⟨[("Non Defective", .str "#06d6a0"),
                   ("Defective", .str "#ef476f"),
                   ("Dust", .str "#ffd60a"),
                   ("Bird Drop", .str "#a855f7"),
                   ("Snow", .str "#4cc9f0"),
                   ("Shade", .str "#6b7280")], false⟩
  classIcons := ⟨[("Non Defective", .str "✅"),
                  ("NON_DEFECTIVE", .str "✅"),
                  ("Defective", .str "⚠️"),
                  ("DEFECTIVE", .str "⚠️"),
                  ("Dust", .str "🌫️"),
                  ("DUST", .str "🌫️"),
                  ("Bird Drop", .str "🐦"),
                  ("BIRD_DROP", .str "🐦"),
                  ("Snow", .str "❄️"),
                  ("SNOW", .str "❄️"),
                  ("Shade", .str "🌑"),
                  ("SHADE", .str "🌑")], false⟩
  supportedTypes := ⟨[("0", .str "image/jpeg"),
                      ("1", .str "image/png"),
                      ("2", .str "image/webp"),
                      ("length", .num 3)], false⟩
  supportedVideoTypes := ⟨[("0", .str "video/mp4"),
                           ("1", .str "video/webm"),
                           ("2", .str "video/quicktime"),
                           ("3", .str "video/x-msvideo"),
                           ("length", .num 4)], false⟩

/-- The heap after initialization: `Object.freeze(CONFIG)`,
`Object.freeze(CONFIG.ENDPOINTS)`, `Object.freeze(CONFIG.CLASS_COLORS)`,
`Object.freeze(CONFIG.CLASS_ICONS)` — and nothing else frozen. -/
def configHeap : ConfigHeap :=
  let h := rawConfigHeap
  { h with cfg := freezeObj h.cfg, endpoints := freezeObj h.endpoints,
           classColors := freezeObj h.classColors, classIcons := freezeObj h.classIcons }

/- ===== Concrete inputs for witnesses and counterexamples ===== -/

def swShell : Response := ⟨200, "app shell markup"⟩

def swCache0 : CacheStore := [("/index.html", swShell)]

/-- A previously selected, valid video with a video state. -/
def videoFile0 : JSFile := ⟨"video/mp4", 1024⟩

/-- A file whose MIME type is in neither allow-list. -/
def badFile0 : JSFile := ⟨"text/plain", 5⟩

/-- Controller state with a video selected and previewed. -/
def videoState0 : UIState := ⟨some videoFile0, true, true, false, []⟩

/-- A detection whose label is literally `"non-defective"` (lowercase). -/
def dLower : Detection := ⟨"non-defective", "Defective"⟩

/-- A detection tallied under `"NON_DEFECTIVE"`. -/
def dUpper : Detection := ⟨"NON_DEFECTIVE", "Non Defective"⟩

/-- A five-frame video result, as in the spec's example. -/
def frames5 : List Frame :=
  [⟨"o0", "d0", "s0", []⟩, ⟨"o1", "d1", "s1", []⟩, ⟨"o2", "d2", "s2", []⟩,
   ⟨"o3", "d3", "s3", []⟩, ⟨"o4", "d4", "s4", []⟩]

/- ===== Lemmas about the worker ===== -/

theorem mem_deleteCache {stores : List (String × CacheStore)} {name : String}
    {p : String × CacheStore} :
    p ∈ deleteCache stores name ↔ p ∈ stores ∧ p.1 ≠ name := by
  simp [deleteCache]

theorem mem_foldl_deleteCache (names : List String) :
    ∀ (stores : List (String × CacheStore)) (p : String × CacheStore),
      p ∈ names.foldl deleteCache stores ↔ p ∈ stores ∧ p.1 ∉ names := by
  induction names with
  | nil => simp
  | cons n ns ih =>
      intro stores p
      rw [List.foldl_cons, ih, mem_deleteCache]
      constructor
      · rintro ⟨⟨hp, hn⟩, hns⟩
        exact ⟨hp, by simp [hn, hns]⟩
      · rintro ⟨hp, hnot⟩
        simp only [List.mem_cons, not_or] at hnot
        exact ⟨⟨hp, hnot.1⟩, hnot.2⟩

theorem lookupCache_putCache (cache : CacheStore) (url : String) (resp : Response) :
    lookupCache (putCache cache url resp) url = some resp := by
  induction cache with
  | nil => simp [putCache, lookupCache]
  | cons hd tl ih =>
      obtain ⟨u, r⟩ := hd
      by_cases h : u = url
      · simp [putCache, lookupCache, h]
      · simp [putCache, lookupCache, h, ih]

/- ===== Claim theorems: cache worker ===== -/

/-- C4: in the cache worker's fetch handling, when the network fetch for
a (non-API, uncached) request fails, a top-level page navigation gets
the cached application shell page (`/index.html`) as a fallback, while
every non-navigation request gets no fallback: the `respondWith` promise
resolves without a response and the caller observes the failure, not a
substituted or empty response. -/
theorem C4_offline_fallback (cache : CacheStore) (req : Request) (shell : Response)
    (hapi : hasApiMarker req.url = false)
    (hmiss : lookupCache cache req.url = none)
    (hshell : lookupCache cache "/index.html" = some shell) :
    (req.mode = "navigate" → handleFetch cache req .failed = (.respond shell, cache))
    ∧ (req.mode ≠ "navigate" → handleFetch cache req .failed = (.undefinedResponse, cache)) := by
  constructor <;> intro hmode <;> simp [handleFetch, hapi, hmiss, hmode, hshell]

theorem C4_offline_fallback_witness :
    hasApiMarker "/css/style.css" = false
    ∧ handleFetch swCache0 ⟨"/css/style.css", "navigate"⟩ .failed
        = (.respond swShell, swCache0)
    ∧ handleFetch swCache0 ⟨"/css/style.css", "no-cors"⟩ .failed
        = (.undefinedResponse, swCache0) :=
  ⟨by decide,
   (C4_offline_fallback swCache0 ⟨"/css/style.css", "navigate"⟩ swShell
      (by decide) (by decide) (by decide)).1 rfl,
   (C4_offline_fallback swCache0 ⟨"/css/style.css", "no-cors"⟩ swShell
      (by decide) (by decide) (by decide)).2 (by decide)⟩

/-- C5: every request whose URL contains the backend API marker `/api/`
is passed through untouched: the worker responds with nothing (the
browser goes to the network), reads nothing from the cache store, and
the cache store is left exactly as it was. -/
theorem C5_api_bypass (cache : CacheStore) (req : Request) (net : NetResult)
    (h : hasApiMarker req.url = true) :
    handleFetch cache req net = (.passthrough, cache) := by
  simp [handleFetch, h]

theorem C5_api_bypass_witness :
    hasApiMarker "https://YOUR_API_SERVER_URL/api/analyze" = true
    ∧ handleFetch swCache0 ⟨"https://YOUR_API_SERVER_URL/api/analyze", "cors"⟩ .failed
        = (.passthrough, swCache0) :=
  ⟨by decide,
   C5_api_bypass swCache0 ⟨"https://YOUR_API_SERVER_URL/api/analyze", "cors"⟩ .failed
     (by decide)⟩

/-- C6: for a non-API request missing from the cache, the worker fetches
from the network, returns the network response to the caller, and stores
a copy in the cache if and only if the response status is the success
status 200; a non-200 reply is returned without being cached. -/
theorem C6_recache_iff_success (cache : CacheStore) (req : Request) (resp : Response)
    (hapi : hasApiMarker req.url = false)
    (hmiss : lookupCache cache req.url = none) :
    handleFetch cache req (.ok resp)
      = (.respond resp, if resp.status = 200 then putCache cache req.url resp else cache)
    ∧ lookupCache (handleFetch cache req (.ok resp)).2 req.url
      = (if resp.status = 200 then some resp else none) := by
  by_cases h : resp.status = 200 <;>
    simp [handleFetch, hapi, hmiss, h, lookupCache_putCache]

theorem C6_recache_iff_success_witness :
    hasApiMarker "/js/app.js" = false
    ∧ lookupCache swCache0 "/js/app.js" = none
    ∧ handleFetch swCache0 ⟨"/js/app.js", "no-cors"⟩ (.ok ⟨200, "script"⟩)
        = (.respond ⟨200, "script"⟩, putCache swCache0 "/js/app.js" ⟨200, "script"⟩) := by
  refine ⟨by decide, by decide, ?_⟩
  have h := (C6_recache_iff_success swCache0 ⟨"/js/app.js", "no-cors"⟩ ⟨200, "script"⟩
    (by decide) (by decide)).1
  simpa using h

/-- C8: activating the worker deletes exactly the cache stores whose
version tag differs from `CACHE_NAME`; a store tagged with the current
version survives with all of its entries intact. -/
theorem C8_activate_purges_stale (stores : List (String × CacheStore))
    (p : String × CacheStore) :
    p ∈ activateSW stores ↔ p ∈ stores ∧ p.1 = CACHE_NAME := by
  rw [activateSW, mem_foldl_deleteCache]
  constructor
  · rintro ⟨hp, hnot⟩
    refine ⟨hp, ?_⟩
    by_contra hne
    apply hnot
    simp only [List.mem_filter]
    exact ⟨List.mem_map_of_mem Prod.fst hp, by simpa using hne⟩
  · rintro ⟨hp, heq⟩
    refine ⟨hp, ?_⟩
    intro hmem
    simp only [List.mem_filter] at hmem
    have h2 : p.1 ≠ CACHE_NAME := by simpa using hmem.2
    exact h2 heq

/- ===== Claim theorems: file selection (C2, C10) ===== -/

/-- C2 counterexample: processing a file whose MIME type is in neither
allow-list, starting from a state with a video selected, flips the
image-vs-video classification flag from `true` to `false` even though
the file is rejected — the claim that all selection/preview state is
left exactly as it was is false. -/
theorem C2_flag_clobbered_cex :
    CONFIG.SUPPORTED_TYPES.contains badFile0.type = false
    ∧ CONFIG.SUPPORTED_VIDEO_TYPES.contains badFile0.type = false
    ∧ (processFile videoState0 badFile0).isVideo ≠ videoState0.isVideo := by
  refine ⟨by decide, by decide, by decide⟩

/-- C2 (amended): for a file whose MIME type is in neither allow-list,
`processFile` emits exactly the invalid-file error toast and leaves the
selected file, the preview visibility, the results visibility and the
toast history untouched — but it first overwrites the image-vs-video
classification flag with the new file's classification, i.e. `false`. -/
theorem C2_invalid_type_rejected (s : UIState) (file : JSFile)
    (h1 : CONFIG.SUPPORTED_TYPES.contains file.type = false)
    (h2 : CONFIG.SUPPORTED_VIDEO_TYPES.contains file.type = false) :
    processFile s file
      = { s with isVideo := false,
                 toasts := s.toasts
                   ++ [("Please select a valid image or video file", "error")] } := by
  have hm1 : file.type ∉ CONFIG.SUPPORTED_TYPES := by simpa using h1
  have hm2 : file.type ∉ CONFIG.SUPPORTED_VIDEO_TYPES := by simpa using h2
  simp [processFile, hm1, hm2, showToast]

theorem C2_invalid_type_rejected_witness :
    CONFIG.SUPPORTED_TYPES.contains badFile0.type = false
    ∧ processFile videoState0 badFile0
        = { videoState0 with
              isVideo := false,
              toasts := videoState0.toasts
                ++ [("Please select a valid image or video file", "error")] } :=
  ⟨by decide, C2_invalid_type_rejected videoState0 badFile0 (by decide) (by decide)⟩

/-- C10: the size check is strict.  For a file of a supported type, a
byte size up to and including the applicable ceiling (10MB for images,
50MB for videos) is accepted — the file is adopted and the preview
shown with no toast — and only a size strictly above the ceiling is
rejected, leaving the selection untouched and emitting the
size-specific message. -/
theorem C10_size_boundary (s : UIState) (file : JSFile) :
    (CONFIG.SUPPORTED_TYPES.contains file.type = true →
     CONFIG.SUPPORTED_VIDEO_TYPES.contains file.type = false →
       (file.size ≤ CONFIG.MAX_FILE_SIZE →
          (processFile s file).selectedFile = some file
          ∧ (processFile s file).previewVisible = true
          ∧ (processFile s file).toasts = s.toasts)
       ∧ (CONFIG.MAX_FILE_SIZE < file.size →
          (processFile s file).selectedFile = s.selectedFile
          ∧ (processFile s file).previewVisible = s.previewVisible
          ∧ (processFile s file).toasts
              = s.toasts ++ [("File size must be less than 10MB", "error")]))
    ∧ (CONFIG.SUPPORTED_VIDEO_TYPES.contains file.type = true →
       (file.size ≤ CONFIG.MAX_VIDEO_SIZE →
          (processFile s file).selectedFile = some file
          ∧ (processFile s file).previewVisible = true
          ∧ (processFile s file).toasts = s.toasts)
       ∧ (CONFIG.MAX_VIDEO_SIZE < file.size →
          (processFile s file).selectedFile = s.selectedFile
          ∧ (processFile s file).previewVisible = s.previewVisible
          ∧ (processFile s file).toasts
              = s.toasts ++ [("File size must be less than 50MB", "error")])) := by
  constructor
  · intro himg hvid
    have hm1 : file.type ∈ CONFIG.SUPPORTED_TYPES := by simpa using himg
    have hm2 : file.type ∉ CONFIG.SUPPORTED_VIDEO_TYPES := by simpa using hvid
    constructor
    · intro hsize
      have hle : ¬ CONFIG.MAX_FILE_SIZE < file.size := by omega
      simp [processFile, hm1, hm2, hle, showPreview]
    · intro hsize
      have hmsg : CONFIG.MAX_FILE_SIZE / 1024 / 1024 = 10 := by decide
      simp [processFile, hm1, hm2, hsize, hmsg, showToast]
      decide
  · intro hvid
    have hm2 : file.type ∈ CONFIG.SUPPORTED_VIDEO_TYPES := by simpa using hvid
    constructor
    · intro hsize
      have hle : ¬ CONFIG.MAX_VIDEO_SIZE < file.size := by omega
      simp [processFile, hm2, hle, showPreview]
    · intro hsize
      have hmsg : CONFIG.MAX_VIDEO_SIZE / 1024 / 1024 = 50 := by decide
      simp [processFile, hm2, hsize, hmsg, showToast]
      decide

theorem C10_size_boundary_witness :
    CONFIG.SUPPORTED_TYPES.contains "image/png" = true
    ∧ (10485760 : Nat) = CONFIG.MAX_FILE_SIZE
    ∧ (processFile videoState0 ⟨"image/png", 10485760⟩).selectedFile
        = some ⟨"image/png", 10485760⟩
    ∧ (processFile videoState0 ⟨"image/png", 10485761⟩).toasts
        = videoState0.toasts ++ [("File size must be less than 10MB", "error")] := by
  refine ⟨by decide, by decide, ?_, ?_⟩
  · exact (((C10_size_boundary videoState0 ⟨"image/png", 10485760⟩).1
      (by decide) (by decide)).1 (by decide)).1
  · exact (((C10_size_boundary videoState0 ⟨"image/png", 10485761⟩).1
      (by decide) (by decide)).2 (by decide)).2.2

/- ===== Claim theorems: frozen configuration (C9) ===== -/

/-- C9 counterexample: `Object.freeze` is shallow, and the two MIME-type
arrays are never frozen, so an external write to an element of
`CONFIG.SUPPORTED_TYPES` succeeds and changes the configuration's
contents after initialization. -/
theorem C9_shallow_freeze_cex :
    (writeProp configHeap .supportedTypes "0" (.str "text/html")).supportedTypes.props.head?
      = some ("0", .str "text/html")
    ∧ configHeap.supportedTypes.props.head? = some ("0", .str "image/jpeg")
    ∧ writeProp configHeap .supportedTypes "0" (.str "text/html") ≠ configHeap := by
  refine ⟨by decide, by decide, fun h => ?_⟩
  exact absurd (congrArg (fun hp : ConfigHeap => hp.supportedTypes.props.head?) h)
    (by decide)

/-- C9 (amended): after initialization the top-level `CONFIG` object and
its nested `ENDPOINTS`, `CLASS_COLORS` and `CLASS_ICONS` objects are
frozen — every attempted property write on them is a no-op — but the
`SUPPORTED_TYPES` and `SUPPORTED_VIDEO_TYPES` arrays are not frozen
(`Object.freeze` is shallow), so their elements remain mutable. -/
theorem C9_config_freeze :
    (∀ (k : String) (v : JSVal), writeProp configHeap .cfg k v = configHeap)
    ∧ (∀ (k : String) (v : JSVal), writeProp configHeap .endpoints k v = configHeap)
    ∧ (∀ (k : String) (v : JSVal), writeProp configHeap .classColors k v = configHeap)
    ∧ (∀ (k : String) (v : JSVal), writeProp configHeap .classIcons k v = configHeap)
    ∧ configHeap.supportedTypes.frozen = false
    ∧ configHeap.supportedVideoTypes.frozen = false :=
  ⟨fun _ _ => rfl, fun _ _ => rfl, fun _ _ => rfl, fun _ _ => rfl, rfl, rfl⟩

/- ===== Lemmas about frame navigation ===== -/

theorem navStep_frames (s : FrameNavState) (c : NavCmd) : (navStep s c).frames = s.frames := by
  cases c <;>
    simp only [navStep, showPrevFrame, showNextFrame, showFrameResult] <;>
    split <;> (try split) <;> rfl

theorem navStep_index_range (s : FrameNavState) (c : NavCmd)
    (h0 : 0 ≤ s.currentFrameIndex)
    (h1 : s.currentFrameIndex ≤ (s.frames.length : Int) - 1) :
    0 ≤ (navStep s c).currentFrameIndex
    ∧ (navStep s c).currentFrameIndex ≤ (s.frames.length : Int) - 1 := by
  cases c <;>
    simp only [navStep, showPrevFrame, showNextFrame, showFrameResult] <;>
    split <;> (try split) <;> simp_all <;> omega

theorem runNav_inv (cmds : List NavCmd) :
    ∀ s : FrameNavState, 0 ≤ s.currentFrameIndex →
      s.currentFrameIndex ≤ (s.frames.length : Int) - 1 →
      (runNav s cmds).frames = s.frames
      ∧ 0 ≤ (runNav s cmds).currentFrameIndex
      ∧ (runNav s cmds).currentFrameIndex ≤ (s.frames.length : Int) - 1 := by
  induction cmds with
  | nil => intro s h0 h1; exact ⟨rfl, h0, h1⟩
  | cons c cs ih =>
      intro s h0 h1
      have hf := navStep_frames s c
      have hr := navStep_index_range s c h0 h1
      have := ih (navStep s c) hr.1 (by rw [hf]; exact hr.2)
      simp only [runNav, List.foldl_cons] at *
      exact ⟨by rw [this.1, hf], this.2.1, by rw [← hf]; exact this.2.2⟩

theorem runNav_replicate_next (k : Nat) :
    ∀ s : FrameNavState, 0 ≤ s.currentFrameIndex →
      s.currentFrameIndex + (k : Int) ≤ (s.frames.length : Int) - 1 →
      (runNav s (List.replicate k .next)).currentFrameIndex
        = s.currentFrameIndex + (k : Int) := by
  induction k with
  | zero => intro s _ _; simp [runNav]
  | succ n ih =>
      intro s h0 hk
      have hlt : s.currentFrameIndex < (s.frames.length : Int) - 1 := by
        have : (0 : Int) ≤ (n : Int) := Int.ofNat_nonneg n
        push_cast at hk
        omega
      have hstep : navStep s .next = { s with currentFrameIndex := s.currentFrameIndex + 1 } := by
        have hg : ¬ (s.currentFrameIndex + 1 < 0
            ∨ (s.frames.length : Int) ≤ s.currentFrameIndex + 1) := by omega
        simp only [navStep, showNextFrame, showFrameResult, if_pos hlt, if_neg hg]
      rw [List.replicate_succ]
      simp only [runNav, List.foldl_cons]
      rw [show List.foldl navStep (navStep s .next) (List.replicate n .next)
            = runNav (navStep s .next) (List.replicate n .next) from rfl]
      rw [hstep]
      have := ih { s with currentFrameIndex := s.currentFrameIndex + 1 }
        (by simp; omega) (by simp; push_cast at hk ⊢; omega)
      rw [this]
      push_cast
      ring

/- ===== Claim theorem: frame navigation (C7) ===== -/

/-- C7: for a loaded multi-frame result with `n` frames, starting at
frame 0, any sequence of prev/next clicks keeps the current frame index
inside `[0, n-1]` (and never changes the frame list); `n-1` next clicks
reach the last frame; a next click at the last frame and a prev click at
the first frame are exact no-ops, leaving the whole navigation state —
hence the displayed frame and index — unchanged. -/
theorem C7_frame_nav_clamped (frames : List Frame) (hne : frames ≠ []) :
    (∀ cmds : List NavCmd,
        (runNav ⟨frames, 0⟩ cmds).frames = frames
        ∧ 0 ≤ (runNav ⟨frames, 0⟩ cmds).currentFrameIndex
        ∧ (runNav ⟨frames, 0⟩ cmds).currentFrameIndex ≤ (frames.length : Int) - 1)
    ∧ (runNav ⟨frames, 0⟩ (List.replicate (frames.length - 1) .next)).currentFrameIndex
        = (frames.length : Int) - 1
    ∧ (∀ s : FrameNavState, s.frames = frames →
        s.currentFrameIndex = (frames.length : Int) - 1 → showNextFrame s = s)
    ∧ (∀ s : FrameNavState, s.currentFrameIndex = 0 → showPrevFrame s = s) := by
  have hlen : 1 ≤ frames.length := List.length_pos.mpr hne
  refine ⟨?_, ?_, ?_, ?_⟩
  · intro cmds
    have h := runNav_inv cmds ⟨frames, 0⟩ (by simp) (by simp; omega)
    simpa using h
  · have h := runNav_replicate_next (frames.length - 1) ⟨frames, 0⟩ (by simp)
      (by simp; push_cast [Nat.cast_sub hlen]; omega)
    rw [h]
    push_cast [Nat.cast_sub hlen]
    ring
  · intro s hf hi
    simp only [showNextFrame, hf, hi]
    rw [if_neg (by omega)]
  · intro s hi
    simp only [showPrevFrame, hi]
    rw [if_neg (by omega)]

theorem C7_frame_nav_clamped_witness :
    frames5 ≠ []
    ∧ (runNav ⟨frames5, 0⟩ (List.replicate (frames5.length - 1) .next)).currentFrameIndex
        = (frames5.length : Int) - 1 :=
  ⟨by decide, (C7_frame_nav_clamped frames5 (by decide)).2.1⟩

/- ===== Lemmas about the progress indicator ===== -/

theorem xhrStep_upload_width (s : ProgressState) (loaded total : Nat)
    (ht : 0 < total) (hl : loaded ≤ total) :
    (xhrStep s (.uploadProgress loaded total)).width = (loaded : ℚ) / (total : ℚ) * 30
    ∧ (xhrStep s (.uploadProgress loaded total)).width ≤ 30 := by
  refine ⟨rfl, ?_⟩
  show (loaded : ℚ) / (total : ℚ) * 30 ≤ 30
  have h1 : (loaded : ℚ) / (total : ℚ) ≤ 1 := by
    rw [div_le_one (by exact_mod_cast ht)]
    exact_mod_cast hl
  nlinarith

theorem xhrStep_inv (s : ProgressState) (e : XhrEvent) (hv : validEvt e = true)
    (hw : s.width ≤ 90) (hp2 : s.progress % 2 = 0) (hp : s.progress ≤ 90) :
    (xhrStep s e).width ≤ 90 ∧ (xhrStep s e).progress % 2 = 0
    ∧ (xhrStep s e).progress ≤ 90 := by
  cases e with
  | uploadProgress loaded total =>
      simp only [validEvt, Bool.and_eq_true, decide_eq_true_eq] at hv
      have h30 := (xhrStep_upload_width s loaded total hv.1 hv.2).2
      exact ⟨by linarith, hp2, hp⟩
  | tick =>
      by_cases hA : s.intervalActive = true
      · by_cases h90 : s.progress < 90
        · have hle : s.progress + 2 ≤ 90 := by omega
          simp only [xhrStep, hA, if_true, h90]
          exact ⟨by exact_mod_cast hle, by omega, hle⟩
        · simp only [xhrStep, hA, if_true, h90, if_false]
          exact ⟨hw, hp2, hp⟩
      · simp only [xhrStep, hA, if_false]
        exact ⟨hw, hp2, hp⟩
  | load status => simp [validEvt] at hv
  | netError => exact ⟨hw, hp2, hp⟩

theorem foldl_xhrStep_inv (evts : List XhrEvent) :
    ∀ s : ProgressState, (∀ e ∈ evts, validEvt e = true) →
      s.width ≤ 90 → s.progress % 2 = 0 → s.progress ≤ 90 →
      (evts.foldl xhrStep s).width ≤ 90 := by
  induction evts with
  | nil => intro s _ hw _ _; exact hw
  | cons e es ih =>
      intro s hv hw hp2 hp
      have h := xhrStep_inv s e (hv e (List.mem_cons_self e es)) hw hp2 hp
      simpa only [List.foldl_cons] using
        ih (xhrStep s e) (fun x hx => hv x (List.mem_cons_of_mem e hx)) h.1 h.2.1 h.2.2

/- ===== Claim theorems: video progress indicator (C1) ===== -/

/-- C1 counterexample: the 500ms cadence does not wait for the upload to
complete.  The very first tick — fired before any upload-progress event,
hence before any byte has been reported sent — already advances the
indicator from its initial 0% to 32%, refuting the claim that the
indicator advances on the fixed cadence only once upload completes. -/
theorem C1_cadence_races_upload_cex :
    (runXhr [XhrEvent.tick]).width = 32
    ∧ (runXhr [XhrEvent.tick]).width ≠ initProgress.width := by
  constructor
  · norm_num [runXhr, xhrStep, initProgress]
  · norm_num [runXhr, xhrStep, initProgress]

/-- C1 (amended): upload-progress events map proportionally to the
first 30% of the indicator; the fixed 500ms cadence starts at
`xhr.send`, concurrently with the upload (its first tick already moves
the bar to 32%), advancing 2 points per tick; under well-formed events
with the response not yet arrived, the indicator never exceeds 90%; and
on response arrival (`onload`, any status) the indicator is forced to
100% and the cadence is stopped. -/
theorem C1_progress_indicator (evts : List XhrEvent)
    (h : ∀ e ∈ evts, validEvt e = true) :
    (runXhr evts).width ≤ 90
    ∧ (∀ (s : ProgressState) (loaded total : Nat), 0 < total → loaded ≤ total →
        (xhrStep s (.uploadProgress loaded total)).width = (loaded : ℚ) / (total : ℚ) * 30
        ∧ (xhrStep s (.uploadProgress loaded total)).width ≤ 30)
    ∧ (∀ (s : ProgressState) (status : Nat),
        (xhrStep s (.load status)).width = 100
        ∧ (xhrStep s (.load status)).intervalActive = false)
    ∧ (xhrStep initProgress .tick).width = 32 := by
  refine ⟨foldl_xhrStep_inv evts initProgress h (by norm_num [initProgress])
            (by decide) (by decide),
          fun s loaded total ht hl => xhrStep_upload_width s loaded total ht hl,
          fun s status => ⟨rfl, rfl⟩, ?_⟩
  norm_num [xhrStep, initProgress]

theorem C1_progress_indicator_witness :
    (∀ e ∈ [XhrEvent.uploadProgress 1 2, XhrEvent.tick], validEvt e = true)
    ∧ (runXhr [XhrEvent.uploadProgress 1 2, XhrEvent.tick]).width ≤ 90 :=
  ⟨by decide,
   (C1_progress_indicator [XhrEvent.uploadProgress 1 2, XhrEvent.tick] (by decide)).1⟩

/- ===== Lemmas about the fault tally ===== -/

theorem mem_keys_bump (m : List (String × Nat)) (k j : String) :
    (∃ c, (j, c) ∈ bump m k) ↔ (∃ c, (j, c) ∈ m) ∨ j = k := by
  unfold bump
  by_cases h : m.any (fun p => p.1 = k) = true
  · rw [if_pos h]
    constructor
    · rintro ⟨c, hc⟩
      obtain ⟨⟨a, b⟩, hp, he⟩ := List.mem_map.mp hc
      have ha : a = j := by
        have h2 := congrArg Prod.fst he
        have h3 : (if a = k then ((a : String), b + 1) else (a, b)).1 = a := by
          split <;> rfl
        rwa [h3] at h2
      subst ha
      exact Or.inl ⟨b, hp⟩
    · intro hor
      have hj : ∃ c, (j, c) ∈ m := by
        rcases hor with hex | hjk
        · exact hex
        · subst hjk
          obtain ⟨p, hp, hpk⟩ := List.any_eq_true.mp h
          have hpj : p.1 = j := of_decide_eq_true hpk
          exact ⟨p.2, by rw [← hpj]; exact hp⟩
      obtain ⟨c, hc⟩ := hj
      refine ⟨if j = k then c + 1 else c, ?_⟩
      have heq : (if j = k then ((j : String), c + 1) else (j, c))
          = (j, if j = k then c + 1 else c) := by split <;> rfl
      rw [← heq]
      exact List.mem_map_of_mem (fun p : String × Nat =>
        if p.1 = k then (p.1, p.2 + 1) else p) hc
  · rw [if_neg h]
    constructor
    · rintro ⟨c, hc⟩
      rcases List.mem_append.mp hc with h1 | h2
      · exact Or.inl ⟨c, h1⟩
      · simp only [List.mem_singleton, Prod.mk.injEq] at h2
        exact Or.inr h2.1
    · rintro (⟨c, hc⟩ | hjk)
      · exact ⟨c, List.mem_append_left _ hc⟩
      · subst hjk
        exact ⟨1, List.mem_append_right _ (by simp)⟩

theorem mem_keys_foldl_bump (l : List String) :
    ∀ (m : List (String × Nat)) (j : String),
      (∃ c, (j, c) ∈ l.foldl bump m) ↔ (∃ c, (j, c) ∈ m) ∨ j ∈ l := by
  induction l with
  | nil => simp
  | cons a l ih =>
      intro m j
      rw [List.foldl_cons, ih, mem_keys_bump, List.mem_cons, or_assoc]

theorem faultCounts_eq (ds : List Detection) :
    faultCounts ds = (ds.map effFault).foldl bump [] := by
  simp [faultCounts, List.foldl_map]

theorem mem_faultTally (ds : List Detection) (j : String) :
    (∃ c, (j, c) ∈ faultTally ds) ↔ j ∈ ds.map effFault ∧ j ≠ "NON_DEFECTIVE" := by
  unfold faultTally
  constructor
  · rintro ⟨c, hc⟩
    rw [List.mem_filter] at hc
    have h1 : ∃ c, (j, c) ∈ faultCounts ds := ⟨c, hc.1⟩
    rw [faultCounts_eq, mem_keys_foldl_bump] at h1
    refine ⟨by simpa using h1, by simpa using hc.2⟩
  · rintro ⟨hmem, hne⟩
    have h1 : ∃ c, (j, c) ∈ faultCounts ds := by
      rw [faultCounts_eq, mem_keys_foldl_bump]
      exact Or.inr hmem
    obtain ⟨c, hc⟩ := h1
    exact ⟨c, List.mem_filter.mpr ⟨hc, by simpa using hne⟩⟩

/- ===== Claim theorems: single-image statistics (C3) ===== -/

/-- C3 counterexample: the tally's exclusion is the literal string
`'NON_DEFECTIVE'`, not `"non-defective"`.  A detection whose fault-type
label is literally `"non-defective"` is NOT excluded — it appears in
the tally — while a detection labeled `"NON_DEFECTIVE"` (a fault type
present in the response) gets no tally entry, so both directions of the
claim's exclusion clause fail on the code. -/
theorem C3_literal_label_cex :
    effFault dLower = "non-defective"
    ∧ faultTally [dLower] = [("non-defective", 1)]
    ∧ effFault dUpper = "NON_DEFECTIVE"
    ∧ faultTally [dUpper] = [] :=
  ⟨by decide, by decide, by decide, by decide⟩

/-- C3 (amended): the first rendered stat card shows a detection count
equal to the number of detections in the response, and the per-fault-type
tally has an entry for a label exactly when that label is the effective
fault type (`fault_type`, falling back to `class_name`) of some
detection and differs from the literal string `"NON_DEFECTIVE"`. -/
theorem C3_stats_tally (r : AnalysisResult) :
    (displayStats r).head? = some (toString r.detections.length, "Detections")
    ∧ (∀ ft : String, (∃ c, (ft, c) ∈ faultTally r.detections)
        ↔ (ft ∈ r.detections.map effFault ∧ ft ≠ "NON_DEFECTIVE")) :=
  ⟨rfl, fun ft => mem_faultTally r.detections ft⟩
